import Mathlib

/-!
Shallow embedding of `scripts/fetch_burnt_areas.py`: the EFFIS burnt-area
fetch/parse/bundle pipeline.  Python floats are modelled as rationals (the
decimal literals of the feed are exact in ℚ); text is modelled as `String` /
`List Char`; the network and the XML parser are modelled by `Except` inputs
describing their outcome, since the script only branches on success/failure
of those library calls.
-/

attribute [local semireducible] Rat.mul Rat.inv Rat.add Rat.sub Rat.ofScientific

namespace BurntAreas

/-- ASCII whitespace recognised by Python `str.split()` / `str.strip()`
(the feed's numeric posList text contains no exotic Unicode spaces). -/
def isPySpace (c : Char) : Bool :=
  c = ' ' || c = '\t' || c = '\n' || c = '\r' || c = '\x0b' || c = '\x0c'

/-- `str.strip()` on a character list. -/
def stripChars (cs : List Char) : List Char :=
  ((cs.dropWhile isPySpace).reverse.dropWhile isPySpace).reverse

/-- Worker for `pysplit`: accumulates the current token (reversed). -/
def splitWsAux : List Char → List Char → List (List Char)
  | [], acc => if acc = [] then [] else [acc.reverse]
  | c :: rest, acc =>
    if isPySpace c then
      if acc = [] then splitWsAux rest [] else acc.reverse :: splitWsAux rest []
    else splitWsAux rest (c :: acc)

/-- Python `str.split()` with no argument: split on runs of whitespace,
dropping empty tokens. -/
def pysplit (cs : List Char) : List (List Char) := splitWsAux cs []

/-- Numeric value of a decimal digit character. -/
def digitVal (c : Char) : ℕ := c.toNat - '0'.toNat

/-- Value of a list of decimal digit characters (most significant first). -/
def digitsToNat (cs : List Char) : ℕ := cs.foldl (fun n c => 10 * n + digitVal c) 0

/-- Unsigned decimal mantissa of Python `float()`: `digits[.digits]`,
`.digits` or `digits.`, at least one digit in total. -/
def parseMantissa (cs : List Char) : Option ℚ :=
  let p := cs.span (fun c => c ≠ '.')
  let ip := p.1
  let fp := match p.2 with | [] => ([] : List Char) | _ :: r => r
  if ip.all Char.isDigit ∧ fp.all Char.isDigit ∧ (ip ≠ [] ∨ fp ≠ []) then
    some ((digitsToNat (ip ++ fp) : ℚ) / (10 : ℚ) ^ fp.length)
  else none

/-- Signed decimal exponent of a Python `float()` literal. -/
def parseExp (cs : List Char) : Option ℤ :=
  match cs with
  | '+' :: r => if r ≠ [] ∧ r.all Char.isDigit then some (digitsToNat r) else none
  | '-' :: r => if r ≠ [] ∧ r.all Char.isDigit then some (-(digitsToNat r : ℤ)) else none
  | r => if r ≠ [] ∧ r.all Char.isDigit then some (digitsToNat r) else none

/-- Body of `pyfloatChars` after the optional sign has been removed. -/
def pyfloatBody (body : List Char) : Option ℚ :=
  let q := body.span (fun c => c ≠ 'e' ∧ c ≠ 'E')
  match q.2 with
  | [] => parseMantissa q.1
  | _ :: ecs => do
    let m ← parseMantissa q.1
    let e ← parseExp ecs
    pure (m * (10 : ℚ) ^ e)

/-- Python `float(token)` on a decimal literal (optional sign, decimal
mantissa, optional exponent part); `none` models the `ValueError`
raised on any other text (`inf`/`nan`/underscores never occur in the feed). -/
def pyfloatChars (cs : List Char) : Option ℚ :=
  match cs with
  | '+' :: rest => pyfloatBody rest
  | '-' :: rest => (pyfloatBody rest).map Neg.neg
  | _ => pyfloatBody cs

/-- `[float(x) for x in coords_text.split()]` applied to the stripped
posList text; `none` models the `ValueError` from an unparseable token,
which the function's blanket `except` turns into a skipped feature. -/
def parseCoords (t : String) : Option (List ℚ) :=
  (pysplit (stripChars t.data)).mapM pyfloatChars

/-- The pairing loop `for i in range(0, len(coords_list) - 1, 2)`:
takes consecutive `(lat, lon)` values and emits `[lon, lat]`; a trailing
unpaired value is never visited by the loop. -/
def pairPoints : List ℚ → List (ℚ × ℚ)
  | lat :: lon :: rest => (lon, lat) :: pairPoints rest
  | _ => []

/-- Days in a month, as validated by Python `datetime`'s constructor. -/
def daysInMonth (y m : ℕ) : ℕ :=
  if m = 2 then (if y % 4 = 0 ∧ (y % 100 ≠ 0 ∨ y % 400 = 0) then 29 else 28)
  else if m = 4 ∨ m = 6 ∨ m = 9 ∨ m = 11 then 30 else 31

/-- `datetime.strptime(s, '%Y-%m-%d')`: exactly four year digits, one or two
month digits, one or two day digits, whole string consumed, and the
resulting date must be a valid calendar date with year ≥ 1. -/
def strptimeYmd (cs : List Char) : Option (ℕ × ℕ × ℕ) :=
  match cs with
  | y1 :: y2 :: y3 :: y4 :: '-' :: rest =>
    if y1.isDigit ∧ y2.isDigit ∧ y3.isDigit ∧ y4.isDigit then
      let y := digitsToNat [y1, y2, y3, y4]
      let p := rest.span Char.isDigit
      match p.2 with
      | '-' :: dcs =>
        if p.1 ≠ [] ∧ p.1.length ≤ 2 ∧ dcs ≠ [] ∧ dcs.length ≤ 2 ∧ dcs.all Char.isDigit then
          let m := digitsToNat p.1
          let d := digitsToNat dcs
          if 1 ≤ y ∧ 1 ≤ m ∧ m ≤ 12 ∧ 1 ≤ d ∧ d ≤ daysInMonth y m then
            some (y, m, d)
          else none
        else none
      | _ => none
    else none
  | _ => none

/-- Zero-pad a number below 100 to two digits. -/
def pad2 (n : ℕ) : String := if n < 10 then "0" ++ toString n else toString n

/-- Zero-pad a number below 10000 to four digits. -/
def pad4 (n : ℕ) : String :=
  if n < 10 then "000" ++ toString n
  else if n < 100 then "00" ++ toString n
  else if n < 1000 then "0" ++ toString n
  else toString n

/-- `datetime(y, m, d).isoformat()[:10]`. -/
def isoDate (y m d : ℕ) : String := pad4 y ++ "-" ++ pad2 m ++ "-" ++ pad2 d

/-- The fire-date block: `None` for an empty string; otherwise strict
`%Y-%m-%d` parsing of the first ten characters, falling back on `ValueError`
to the raw ten-character prefix when the string has at least ten characters,
else `None`. -/
def computeFireDate (s : String) : Option String :=
  if s = "" then none
  else
    match strptimeYmd (s.data.take 10) with
    | some (y, m, d) => some (isoDate y m d)
    | none => if 10 ≤ s.data.length then some (String.mk (s.data.take 10)) else none

/-- The observable content of one `ba:burnt_area_{year}` XML element:
the `gml:id` attribute (`''` when absent, as `elem.get` defaults), the text
of the `gml:posList` descendant (`none` when the element is absent; a
present element whose text is Python-falsy is `some ""`), and the
`findtext` results for `ba:area_ha` / `ba:firedate` (`none` when the
descendant is absent, `some t` for its text, `""` when it has none). -/
structure BAElem where
  fid : String
  posList : Option String
  area_ha : Option String
  firedate : Option String
deriving DecidableEq

/-- `elem.findtext('.//ba:area_ha', '0', NAMESPACES) or '0'`. -/
def areaText (a : Option String) : String :=
  match a with
  | none => "0"
  | some t => if t = "" then "0" else t

/-- One record of the output bundle's `features` array. -/
structure Feature where
  id : String
  centroid : ℚ × ℚ
  boundaryPoints : List (ℚ × ℚ)
  areaHectares : ℚ
  fireDate : Option String
  seasonYear : ℤ
deriving DecidableEq

/-- The centroid block: arithmetic mean of the longitudes and of the
latitudes of the boundary points. -/
def centroidOf (ps : List (ℚ × ℚ)) : ℚ × ℚ :=
  ((ps.map Prod.fst).sum / ps.length, (ps.map Prod.snd).sum / ps.length)

/-- `parse_burnt_area_feature(elem, year)`.  `none` models every path on
which the Python function returns `None`: absent/falsy posList, the blanket
`except` catching a `ValueError` from `float()` on a coordinate token or on
the area text, and fewer than three boundary points. -/
def parse_burnt_area_feature (elem : BAElem) (year : ℤ) : Option Feature :=
  match elem.posList with
  | none => none
  | some t =>
    if t = "" then none
    else
      match parseCoords t with
      | none => none
      | some coords_list =>
        if (pairPoints coords_list).length < 3 then none
        else
          match pyfloatChars (areaText elem.area_ha).data with
          | none => none
          | some area_ha =>
            some {
              id := elem.fid
              centroid := centroidOf (pairPoints coords_list)
              boundaryPoints := pairPoints coords_list
              areaHectares := area_ha
              fireDate := computeFireDate (elem.firedate.getD "")
              seasonYear := year }

/-- One `wfs:member` element, abstracted to the year-indexed
`ba:burnt_area_{year}` sub-elements `member.find` can locate in it. -/
abbrev GmlMember := List (ℤ × BAElem)

/-- `member.find(f'.//ba:burnt_area_{year}', NAMESPACES)`. -/
def memberFind (m : GmlMember) (year : ℤ) : Option BAElem :=
  (m.find? (fun p => p.1 == year)).map Prod.snd

/-- `parse_gml_response(gml_text, year)`.  The input is the outcome of
`ET.fromstring(gml_text)`: `.error` is a raised `ParseError` (malformed
XML), `.ok` the member list found in the parsed tree. -/
def parse_gml_response (doc : Except String (List GmlMember)) (year : ℤ) : List Feature :=
  match doc with
  | .error _ => []
  | .ok members =>
    members.filterMap (fun m => (memberFind m year).bind
      (fun ba => parse_burnt_area_feature ba year))

/-- `fetch_burnt_areas(year)`.  The input is the outcome of the HTTP call:
`.error` is a `requests.RequestException` (transport or raise_for_status),
`.ok` carries the outcome of XML-parsing the response text. -/
def fetch_burnt_areas (response : Except String (Except String (List GmlMember)))
    (year : ℤ) : List Feature :=
  match response with
  | .error _ => []
  | .ok doc => parse_gml_response doc year

/-- The JSON envelope written by `save_bundle`. -/
structure Bundle where
  year : ℤ
  region : String
  generatedAt : String
  featureCount : ℕ
  features : List Feature
deriving DecidableEq

/-- `save_bundle(features, year, output_dir)`: the bundle object serialized
to `burnt_areas_{year}_uk.json` (`generatedAt` is the wall-clock timestamp,
passed explicitly). -/
def save_bundle (features : List Feature) (year : ℤ) (generatedAt : String) : Bundle :=
  { year := year
    region := "UK"
    generatedAt := generatedAt
    featureCount := features.length
    features := features }

/-- `main()`: the per-year loop over `[previous_year, current_year]` with
its write-if-nonempty rule, and the exit code.  `fetchRes` gives each
year's `fetch_burnt_areas` result; the returned list holds the bundles
written (with their years, in loop order), the number is the exit status.
The `success` flag of the source is never reassigned on any path. -/
def pymain (fetchRes : ℤ → List Feature) (currentYear : ℤ) (generatedAt : String) :
    List (ℤ × Bundle) × ℕ :=
  let previousYear := currentYear - 1
  let saved := [previousYear, currentYear].filterMap (fun y =>
    let features := fetchRes y
    if features.isEmpty then none else some (y, save_bundle features y generatedAt))
  let success := true
  (saved, if success then 0 else 1)

/-- The spec's worked example element: posList text
`"49.1 -5.2 49.3 -5.0 49.2 -5.1"`, no area, no fire date. -/
def exampleElem : BAElem :=
  ⟨"", some "49.1 -5.2 49.3 -5.0 49.2 -5.1", none, none⟩

/-- The feature the script produces from `exampleElem` for season 2024. -/
def exampleFeature : Feature :=
  { id := ""
    centroid := (-51/10, 246/5)
    boundaryPoints := [(-26/5, 491/10), (-5, 493/10), (-51/10, 246/5)]
    areaHectares := 0
    fireDate := none
    seasonYear := 2024 }

/-- The example element with a non-numeric `ba:area_ha` text. -/
def badAreaElem : BAElem := { exampleElem with area_ha := some "abc" }

/-- The example element with a short unparseable `ba:firedate` text. -/
def badDateElem : BAElem := { exampleElem with firedate := some "bad" }

/-- An element whose posList yields only two coordinate pairs. -/
def shortElem : BAElem := ⟨"", some "49.1 -5.2 49.3 -5.0", none, none⟩

/-- The coordinate list of the worked example. -/
def exampleFloats : List ℚ := [491/10, -26/5, 493/10, -5, 246/5, -51/10]

end BurntAreas

namespace BurntAreas

/-- The pairing loop yields exactly `⌊n/2⌋` points from `n` values. -/
theorem pairPoints_length : ∀ l : List ℚ, (pairPoints l).length = l.length / 2
  | [] => rfl
  | [_] => by simp [pairPoints]
  | _ :: _ :: rest => by
    simp only [pairPoints, List.length_cons, pairPoints_length rest]
    omega

/-- Index view of the pairing loop: point `i` is built from coordinate
values `2*i` (latitude) and `2*i+1` (longitude), emitted `(lon, lat)`. -/
theorem pairPoints_get? : ∀ (l : List ℚ) (i : ℕ),
    (pairPoints l)[i]? = (l[2*i]?).bind (fun lat => (l[2*i+1]?).map (fun lon => (lon, lat)))
  | [], i => by simp [pairPoints]
  | [a], i => by
    cases i with
    | zero => simp [pairPoints]
    | succ n =>
      have h : ([a] : List ℚ)[2*(n+1)]? = none := List.getElem?_eq_none (by simp; omega)
      simp [pairPoints, h]
  | a :: b :: rest, 0 => by simp [pairPoints]
  | a :: b :: rest, i + 1 => by
    have ih := pairPoints_get? rest i
    have h1 : 2 * (i + 1) = 2 * i + 1 + 1 := by ring
    have h2 : 2 * (i + 1) + 1 = (2 * i + 1 + 1) + 1 := by ring
    simp only [pairPoints, h1, h2, List.getElem?_cons_succ, ih, List.length_cons]

/-- The pairing loop never looks at the truncated trailing value. -/
theorem pairPoints_take : ∀ l : List ℚ, pairPoints (l.take (2 * (l.length / 2))) = pairPoints l
  | [] => rfl
  | [_] => by simp [pairPoints]
  | a :: b :: rest => by
    have ih := pairPoints_take rest
    have h : 2 * ((rest.length + 1 + 1) / 2) = 2 * (rest.length / 2) + 1 + 1 := by omega
    simp only [List.length_cons, h, List.take_succ_cons, pairPoints]
    rw [ih]

end BurntAreas

namespace BurntAreas

/-- Anatomy of a successful parse: every `some` result of
`parse_burnt_area_feature` comes from a non-empty posList text whose tokens
all parse as floats, pairs into at least three boundary points, a parseable
area text, and is exactly the record the source assembles. -/
theorem parse_some_spec (elem : BAElem) (year : ℤ) (f : Feature)
    (h : parse_burnt_area_feature elem year = some f) :
    ∃ t floats a, elem.posList = some t ∧ t ≠ "" ∧ parseCoords t = some floats ∧
      3 ≤ (pairPoints floats).length ∧
      pyfloatChars (areaText elem.area_ha).data = some a ∧
      f = { id := elem.fid
            centroid := centroidOf (pairPoints floats)
            boundaryPoints := pairPoints floats
            areaHectares := a
            fireDate := computeFireDate (elem.firedate.getD "")
            seasonYear := year } := by
  unfold parse_burnt_area_feature at h
  split at h
  · cases h
  next t hp =>
    split at h
    · cases h
    next ht =>
      split at h
      · cases h
      next floats hc =>
        split at h
        · cases h
        next hlen =>
          split at h
          · cases h
          next a ha =>
            injection h with h
            exact ⟨t, floats, a, hp, ht, hc, by omega, ha, h.symm⟩

/-- Whether a feature is produced does not depend on the fire-date text. -/
theorem parse_isSome_firedate (elem : BAElem) (year : ℤ) (d : Option String) :
    (parse_burnt_area_feature { elem with firedate := d } year).isSome =
    (parse_burnt_area_feature elem year).isSome := by
  cases hp : elem.posList with
  | none => simp only [parse_burnt_area_feature, hp]
  | some t =>
    simp only [parse_burnt_area_feature, hp]
    by_cases ht : t = ""
    · rw [if_pos ht, if_pos ht]
    · rw [if_neg ht, if_neg ht]
      cases parseCoords t with
      | none => rfl
      | some floats =>
        simp only
        by_cases hlen : (pairPoints floats).length < 3
        · rw [if_pos hlen, if_pos hlen]
        · rw [if_neg hlen, if_neg hlen]
          cases pyfloatChars (areaText elem.area_ha).data <;> rfl

end BurntAreas

namespace BurntAreas

/-- C1: for every whitespace-delimited posList text parsing to floats
`[lat1, lon1, lat2, lon2, ...]`, `parse_burnt_area_feature` pairs
consecutive values as (lat, lon) and emits each pair swapped as
`[lon, lat]` (point `i` is `(value (2i+1), value (2i))`); in particular the
spec's example text yields `[[-5.2,49.1],[-5.0,49.3],[-5.1,49.2]]`. -/
theorem c1_coordinate_pairing :
    (∀ (elem : BAElem) (year : ℤ) (t : String) (floats : List ℚ) (f : Feature),
      elem.posList = some t → parseCoords t = some floats →
      parse_burnt_area_feature elem year = some f →
      f.boundaryPoints.length = floats.length / 2 ∧
      ∀ i : ℕ, f.boundaryPoints[i]? =
        (floats[2*i]?).bind (fun lat => (floats[2*i+1]?).map (fun lon => (lon, lat)))) ∧
    (parse_burnt_area_feature exampleElem 2024).map Feature.boundaryPoints =
      some [(-52/10, 491/10), (-50/10, 493/10), (-51/10, 492/10)] := by
  constructor
  · intro elem year t floats f hp hc hf
    obtain ⟨t2, floats2, a, hp2, ht2, hc2, hlen, ha, hfe⟩ := parse_some_spec elem year f hf
    rw [hp] at hp2
    injection hp2 with hp2
    subst hp2
    rw [hc] at hc2
    injection hc2 with hc2
    subst hc2
    subst hfe
    exact ⟨pairPoints_length floats, fun i => pairPoints_get? floats i⟩
  · decide

/-- Witness for C1 at the spec's worked example. -/
theorem c1_coordinate_pairing_witness :
    exampleFeature.boundaryPoints.length = exampleFloats.length / 2 :=
  (c1_coordinate_pairing.1 exampleElem 2024 "49.1 -5.2 49.3 -5.0 49.2 -5.1"
    exampleFloats exampleFeature rfl (by decide) (by decide)).1

/-- C2: every feature produced by `parse_burnt_area_feature` has centroid
equal to the unweighted arithmetic mean of its boundary point longitudes
and latitudes, and that mean is unchanged under any reordering
(permutation) of the boundary points. -/
theorem c2_centroid_mean :
    ∀ (elem : BAElem) (year : ℤ) (f : Feature),
      parse_burnt_area_feature elem year = some f →
      f.centroid = ((f.boundaryPoints.map Prod.fst).sum / f.boundaryPoints.length,
                    (f.boundaryPoints.map Prod.snd).sum / f.boundaryPoints.length) ∧
      ∀ qs : List (ℚ × ℚ), f.boundaryPoints.Perm qs →
        ((qs.map Prod.fst).sum / qs.length, (qs.map Prod.snd).sum / qs.length) = f.centroid := by
  intro elem year f hf
  obtain ⟨t, floats, a, hp, ht, hc, hlen, ha, hfe⟩ := parse_some_spec elem year f hf
  subst hfe
  constructor
  · rfl
  · intro qs hperm
    have hfst := (hperm.map Prod.fst).sum_eq
    have hsnd := (hperm.map Prod.snd).sum_eq
    have hlen2 := hperm.length_eq
    show ((qs.map Prod.fst).sum / qs.length, (qs.map Prod.snd).sum / qs.length)
        = centroidOf (pairPoints floats)
    unfold centroidOf
    rw [← hfst, ← hsnd, ← hlen2]

/-- Witness for C2 at the spec's worked example. -/
theorem c2_centroid_mean_witness :
    exampleFeature.centroid =
      ((exampleFeature.boundaryPoints.map Prod.fst).sum / exampleFeature.boundaryPoints.length,
       (exampleFeature.boundaryPoints.map Prod.snd).sum / exampleFeature.boundaryPoints.length) :=
  (c2_centroid_mean exampleElem 2024 exampleFeature (by decide)).1

/-- C3: the written bundle's `featureCount` always equals the length of its
`features` array. -/
theorem c3_feature_count :
    ∀ (features : List Feature) (year : ℤ) (generatedAt : String),
      (save_bundle features year generatedAt).featureCount =
      (save_bundle features year generatedAt).features.length := by
  intro features year generatedAt
  rfl

/-- C7: a transport/HTTP error in `fetch_burnt_areas` and a malformed-XML
input to `parse_gml_response` each yield an empty feature list, with no
exception (the embedding is total), so the run continues. -/
theorem c7_errors_yield_empty :
    ∀ (year : ℤ) (e pe : String),
      fetch_burnt_areas (Except.error e) year = [] ∧
      fetch_burnt_areas (Except.ok (Except.error pe)) year = [] ∧
      parse_gml_response (Except.error pe) year = [] := by
  intro year e pe
  exact ⟨rfl, rfl, rfl⟩

/-- C9: `main` always exits with status 0: the `success` flag is never set
false, so the failure value 1 is unreachable. -/
theorem c9_exit_always_zero :
    ∀ (fetchRes : ℤ → List Feature) (currentYear : ℤ) (generatedAt : String),
      (pymain fetchRes currentYear generatedAt).2 = 0 := by
  intro fetchRes currentYear generatedAt
  rfl

end BurntAreas

namespace BurntAreas

/-- C4 counterexample: an element with valid geometry whose `ba:area_ha`
text is the unparseable `"abc"` is skipped (`none`), not returned with
`areaHectares = 0`; the same element without the area text does parse. -/
theorem c4_counterexample :
    parse_burnt_area_feature badAreaElem 2024 = none ∧
    parse_burnt_area_feature exampleElem 2024 ≠ none := by decide

/-- C4 (amended): `areaHectares` defaults to 0.0 when the `ba:area_ha`
sub-element is absent or its text is empty, and the feature is still
returned in those cases; but when the text is present and unparseable as a
number, the `ValueError` is caught by the blanket handler and the feature
is skipped (`None`). -/
theorem c4_area_default :
    ∀ (elem : BAElem) (year : ℤ),
      ((elem.area_ha = none ∨ elem.area_ha = some "") →
        ∀ f, parse_burnt_area_feature elem year = some f → f.areaHectares = 0) ∧
      (∀ t, elem.area_ha = some t → t ≠ "" → pyfloatChars t.data = none →
        parse_burnt_area_feature elem year = none) := by
  intro elem year
  constructor
  · intro hdef f hf
    obtain ⟨t, floats, a, hp, ht, hc, hlen, ha, hfe⟩ := parse_some_spec elem year f hf
    subst hfe
    have h0 : areaText elem.area_ha = "0" := by
      rcases hdef with h | h <;> simp [areaText, h]
    rw [h0] at ha
    have h1 : pyfloatChars ("0" : String).data = some 0 := by decide
    rw [h1] at ha
    injection ha with ha
    exact ha.symm
  · intro t hat htne hbad
    have harea : areaText elem.area_ha = t := by simp [areaText, hat, htne]
    unfold parse_burnt_area_feature
    split
    · rfl
    next s hp =>
      split
      · rfl
      next hs =>
        split
        · rfl
        next floats hc =>
          split
          · rfl
          next hlen =>
            split
            · rfl
            next a ha =>
              rw [harea, hbad] at ha
              cases ha

/-- Witness for C4 (amended): the unparseable-area element is skipped. -/
theorem c4_area_default_witness : parse_burnt_area_feature badAreaElem 2024 = none :=
  (c4_area_default badAreaElem 2024).2 "abc" rfl (by decide) (by decide)

/-- C5 counterexample: with `ba:firedate` text `"bad"` (which fails strict
parsing and is its own 10-character truncation), the feature is returned
with `fireDate = null`, not with the truncated raw string `"bad"`. -/
theorem c5_counterexample :
    (parse_burnt_area_feature badDateElem 2024).map Feature.fireDate = some none ∧
    ("bad" : String).data.take 10 = ("bad" : String).data := by decide

/-- C5 (amended): `fireDate` is null when the `ba:firedate` sub-element is
absent or empty; when the first 10 characters fail strict `YYYY-MM-DD`
parsing it falls back to the raw string truncated to 10 characters if the
raw string has at least 10 characters, and to null otherwise; and the
fire-date text never causes the feature to be skipped. -/
theorem c5_fire_date :
    ∀ (elem : BAElem) (year : ℤ) (f : Feature),
      parse_burnt_area_feature elem year = some f →
      (elem.firedate.getD "" = "" → f.fireDate = none) ∧
      (∀ s, elem.firedate = some s → s ≠ "" → strptimeYmd (s.data.take 10) = none →
        f.fireDate = if 10 ≤ s.data.length then some (String.mk (s.data.take 10)) else none) ∧
      (∀ d, (parse_burnt_area_feature { elem with firedate := d } year).isSome = true) := by
  intro elem year f hf
  obtain ⟨t, floats, a, hp, ht, hc, hlen, ha, hfe⟩ := parse_some_spec elem year f hf
  refine ⟨?_, ?_, ?_⟩
  · intro hs
    subst hfe
    show computeFireDate (elem.firedate.getD "") = none
    rw [hs]
    simp [computeFireDate]
  · intro s hsome hne hbadp
    subst hfe
    show computeFireDate (elem.firedate.getD "") = _
    rw [hsome]
    simp only [Option.getD_some]
    simp [computeFireDate, hne, hbadp]
  · intro d
    rw [parse_isSome_firedate, hf]
    rfl

/-- Witness for C5 (amended): the worked example has no fire date and its
feature's `fireDate` is null. -/
theorem c5_fire_date_witness : exampleFeature.fireDate = none :=
  (c5_fire_date exampleElem 2024 exampleFeature (by decide)).1 rfl

end BurntAreas

namespace BurntAreas

/-- C6: an element whose posList is absent or empty, or yields fewer than
three coordinate pairs, is dropped (`None`); consequently every feature in
a parser result has at least three boundary points. -/
theorem c6_min_three_points :
    ∀ year : ℤ,
      (∀ (elem : BAElem) (f : Feature),
        parse_burnt_area_feature elem year = some f → 3 ≤ f.boundaryPoints.length) ∧
      (∀ elem : BAElem, elem.posList = none → parse_burnt_area_feature elem year = none) ∧
      (∀ elem : BAElem, elem.posList = some "" → parse_burnt_area_feature elem year = none) ∧
      (∀ (elem : BAElem) (t : String) (floats : List ℚ),
        elem.posList = some t → parseCoords t = some floats →
        (pairPoints floats).length < 3 → parse_burnt_area_feature elem year = none) ∧
      (∀ (doc : Except String (List GmlMember)) (f : Feature),
        f ∈ parse_gml_response doc year → 3 ≤ f.boundaryPoints.length) := by
  intro year
  have hmain : ∀ (elem : BAElem) (f : Feature),
      parse_burnt_area_feature elem year = some f → 3 ≤ f.boundaryPoints.length := by
    intro elem f hf
    obtain ⟨t, floats, a, hp, ht, hc, hlen, ha, hfe⟩ := parse_some_spec elem year f hf
    subst hfe
    exact hlen
  refine ⟨hmain, ?_, ?_, ?_, ?_⟩
  · intro elem hp
    simp [parse_burnt_area_feature, hp]
  · intro elem hp
    simp [parse_burnt_area_feature, hp]
  · intro elem t floats hp hc hshort
    simp only [parse_burnt_area_feature, hp]
    by_cases hs : t = ""
    · simp [hs]
    · rw [if_neg hs]
      simp only [hc]
      rw [if_pos hshort]
  · intro doc f hmem
    cases doc with
    | error e => cases hmem
    | ok members =>
      simp only [parse_gml_response, List.mem_filterMap] at hmem
      obtain ⟨m, _, hbind⟩ := hmem
      rw [Option.bind_eq_some] at hbind
      obtain ⟨ba, _, hparse⟩ := hbind
      exact hmain ba f hparse

/-- Witness for C6: a posList with only two coordinate pairs is dropped. -/
theorem c6_min_three_points_witness : parse_burnt_area_feature shortElem 2024 = none :=
  (c6_min_three_points 2024).2.2.2.1 shortElem "49.1 -5.2 49.3 -5.0"
    [491/10, -26/5, 493/10, -5] rfl (by decide) (by decide)

/-- C8: in `main`'s loop, a year whose fetch is empty gets no bundle
written, and the other year is still processed and written when its fetch
is non-empty. -/
theorem c8_empty_year_skipped :
    ∀ (fetchRes : ℤ → List Feature) (currentYear : ℤ) (generatedAt : String),
      (∀ (y : ℤ) (b : Bundle), fetchRes y = [] →
        (y, b) ∉ (pymain fetchRes currentYear generatedAt).1) ∧
      (fetchRes (currentYear - 1) = [] → fetchRes currentYear ≠ [] →
        (pymain fetchRes currentYear generatedAt).1 =
          [(currentYear, save_bundle (fetchRes currentYear) currentYear generatedAt)]) ∧
      (fetchRes currentYear = [] → fetchRes (currentYear - 1) ≠ [] →
        (pymain fetchRes currentYear generatedAt).1 =
          [(currentYear - 1,
            save_bundle (fetchRes (currentYear - 1)) (currentYear - 1) generatedAt)]) := by
  intro fetchRes currentYear generatedAt
  refine ⟨?_, ?_, ?_⟩
  · intro y b hybe hmem
    simp only [pymain, List.mem_filterMap] at hmem
    obtain ⟨z, hzmem, hgz⟩ := hmem
    by_cases hze : (fetchRes z).isEmpty
    · simp [hze] at hgz
    · simp only [hze, Bool.false_eq_true, if_false, Option.some.injEq, Prod.mk.injEq] at hgz
      obtain ⟨hzy, -⟩ := hgz
      subst hzy
      rw [hybe] at hze
      simp at hze
  · intro h1 h2
    simp [pymain, List.isEmpty_iff, h1, h2]
  · intro h1 h2
    simp [pymain, List.isEmpty_iff, h1, h2]

/-- Witness for C8: previous year empty, current year non-empty: only the
current year's bundle is written. -/
theorem c8_empty_year_skipped_witness :
    (pymain (fun y => if y = 2024 then [exampleFeature] else []) 2024 "t").1 =
      [(2024, save_bundle [exampleFeature] 2024 "t")] := by
  have h := (c8_empty_year_skipped (fun y => if y = 2024 then [exampleFeature] else [])
    2024 "t").2.1 (by norm_num) (by simp)
  simpa using h

/-- C10: from `n` parsed coordinate values the pairing loop produces
exactly `⌊n/2⌋` points — for an odd count `2k+1` exactly `k` points using
only the first `2k` values (the trailing value is ignored, no index error:
the embedding is total) — and a parsed feature's boundary point count is
`⌊n/2⌋` for its `n` posList floats. -/
theorem c10_odd_trailing_ignored :
    (∀ (l : List ℚ) (k : ℕ),
      (l.length = 2 * k + 1 →
        (pairPoints l).length = k ∧ pairPoints l = pairPoints (l.take (2 * k))) ∧
      (l.length = 2 * k → (pairPoints l).length = k)) ∧
    (∀ (elem : BAElem) (year : ℤ) (t : String) (floats : List ℚ) (f : Feature),
      elem.posList = some t → parseCoords t = some floats →
      parse_burnt_area_feature elem year = some f →
      f.boundaryPoints.length = floats.length / 2) := by
  constructor
  · intro l k
    constructor
    · intro h
      refine ⟨by rw [pairPoints_length, h]; omega, ?_⟩
      have htake := pairPoints_take l
      have hk : l.length / 2 = k := by omega
      rw [hk] at htake
      exact htake.symm
    · intro h
      rw [pairPoints_length, h]
      omega
  · intro elem year t floats f hp hc hf
    obtain ⟨t2, floats2, a, hp2, ht2, hc2, hlen, ha, hfe⟩ := parse_some_spec elem year f hf
    rw [hp] at hp2
    injection hp2 with hp2
    subst hp2
    rw [hc] at hc2
    injection hc2 with hc2
    subst hc2
    subst hfe
    exact pairPoints_length floats

/-- Witness for C10: seven values yield three points from the first six. -/
theorem c10_odd_trailing_ignored_witness :
    (pairPoints [1, 2, 3, 4, 5, 6, 7]).length = 3 :=
  ((c10_odd_trailing_ignored.1 [1, 2, 3, 4, 5, 6, 7] 3).1 (by decide)).1

end BurntAreas
